import Mathlib

/-!
Verification of the financial normalization and valuation-scoring engine
(`src/tools/akshare-api.py`) against its specification.

The embedding models Python's loosely-typed raw cell values as `RawValue`,
provider rows as association lists, and Python floats as rationals (all
arithmetic appearing in the engine is exact on decimals).  Each definition
mirrors one Python function of the source; doc comments name the source
function and line range.
-/

/-- Raw cell value as produced by the data provider: Python `None`, a bool,
a number, or a string (possibly carrying a unit suffix). -/
inductive RawValue where
  | none : RawValue
  | bool : Bool → RawValue
  | num : ℚ → RawValue
  | str : String → RawValue
  deriving Repr, DecidableEq

/-- Provider row: a mapping from provider field names to raw cell values,
as in a pandas row addressed by column label. -/
abbrev Row := List (String × RawValue)

/-- Python `row.get(key)`: the stored value, or `None` when the key is absent. -/
def rowGet (r : Row) (k : String) : RawValue :=
  match r.lookup k with
  | Option.some v => v
  | Option.none => RawValue.none

/-- Python membership test `value in [None, 'False', False, '', 'nan']`
(akshare-api.py lines 138 and 471).  Python `in` uses `==`, and `0 == False`
holds in Python, so a numeric zero passes this sentinel test. -/
def isNoDataSentinel : RawValue → Bool
  | RawValue.none => true
  | RawValue.bool b => !b
  | RawValue.num x => x == 0
  | RawValue.str s => s == "False" || s == "" || s == "nan"

/-- Value of a nonempty all-digit character list, `Option.none` otherwise. -/
def digitsToNat (cs : List Char) : Option ℕ :=
  if cs.isEmpty then Option.none
  else if cs.all Char.isDigit then
    Option.some (cs.foldl (fun a c => 10 * a + (c.toNat - 48)) 0)
  else Option.none

/-- Parse an unsigned decimal numeral (optionally with one decimal point,
allowing `1.`. and `.5` as Python does) from a character list. -/
def parseUnsignedChars (l : List Char) : Option ℚ :=
  if l.contains '.' then
    let ip := l.takeWhile (fun x => x != '.')
    let fp := (l.dropWhile (fun x => x != '.')).tail
    if fp.contains '.' then Option.none
    else if ip.isEmpty && fp.isEmpty then Option.none
    else
      match (if ip.isEmpty then Option.some 0 else digitsToNat ip),
            (if fp.isEmpty then Option.some 0 else digitsToNat fp) with
      | Option.some a, Option.some b =>
        Option.some ((a : ℚ) + (b : ℚ) / ((10 : ℚ) ^ fp.length))
      | _, _ => Option.none
  else (digitsToNat l).map (fun n => (n : ℚ))

/-- Whitespace-trim of a character list (Python `float` ignores surrounding
whitespace). -/
def trimChars (l : List Char) : List Char :=
  ((l.dropWhile Char.isWhitespace).reverse.dropWhile Char.isWhitespace).reverse

/-- Model of Python `float(s)` on decimal numerals: optional sign, digits,
optional fractional part; any other string raises `ValueError` in Python,
modelled as `Option.none` (the callers catch the exception). -/
def pyFloat (s : String) : Option ℚ :=
  match trimChars s.data with
  | [] => Option.none
  | c :: rest =>
    if c = '-' then (parseUnsignedChars rest).map (fun x => -x)
    else if c = '+' then parseUnsignedChars rest
    else parseUnsignedChars (c :: rest)

/-- Python `'c' in s` for a single-character pattern, as used for the unit
suffix tests: character containment. -/
def charContains (s : String) (c : Char) : Bool := s.data.contains c

/-- Python `s.replace(p, '')` for a single-character pattern `p`, as used to
strip unit suffixes and grouping separators: drop every occurrence. -/
def removeChar (s : String) (c : Char) : String :=
  String.mk (s.data.filter (fun x => x != c))

/-- Python substring test `sub in s` for multi-character patterns (used on
industry names): contiguous-sublist containment. -/
def charsInfix (pat : List Char) : List Char → Bool
  | [] => pat.isEmpty
  | c :: tl => pat.isPrefixOf (c :: tl) || charsInfix pat tl

/-- Substring containment on strings. -/
def containsSub (s sub : String) : Bool := charsInfix sub.data s.data

/-- Value Extractor `safe_extract_value(value, multiplier)` (akshare-api.py
lines 136-155): sentinel inputs and unparseable strings yield missing; a
string with the hundred-million suffix is scaled by 1e8, one with the
ten-thousand suffix by 1e4, a percent suffix is stripped without dividing by
100 (and without applying the multiplier, as in the source); other strings
have grouping separators removed before parsing. -/
def safe_extract_value (value : RawValue) (multiplier : ℚ) : Option ℚ :=
  if isNoDataSentinel value then Option.none
  else
    match value with
    | RawValue.str s =>
      if charContains s '亿' then
        (pyFloat (removeChar s '亿')).map (fun x => x * 100000000 * multiplier)
      else if charContains s '万' then
        (pyFloat (removeChar s '万')).map (fun x => x * 10000 * multiplier)
      else if charContains s '%' then
        pyFloat (removeChar s '%')
      else
        (pyFloat (removeChar (removeChar s ',') ' ')).map (fun x => x * multiplier)
    | RawValue.num x => Option.some (x * multiplier)
    | RawValue.bool b => Option.some ((if b then 1 else 0) * multiplier)
    | RawValue.none => Option.none

/-- Default-substituting extractor variant `safe_float(value, default)`
(akshare-api.py lines 469-484): like the Value Extractor but returns the
caller-supplied default instead of missing, and performs no grouping-separator
stripping on plain numeric strings. -/
def safe_float (value : RawValue) (default : ℚ) : ℚ :=
  if isNoDataSentinel value then default
  else
    match value with
    | RawValue.str s =>
      if charContains s '亿' then
        ((pyFloat (removeChar s '亿')).map (fun x => x * 100000000)).getD default
      else if charContains s '万' then
        ((pyFloat (removeChar s '万')).map (fun x => x * 10000)).getD default
      else if charContains s '%' then
        (pyFloat (removeChar s '%')).getD default
      else
        (pyFloat s).getD default
    | RawValue.num x => x
    | RawValue.bool b => if b then 1 else 0
    | RawValue.none => default

/-- Ratio helper `safe_ratio(numerator, denominator, percentage)`
(akshare-api.py lines 173-178): missing numerator, missing denominator, or
zero denominator yields missing; otherwise the quotient, scaled by 100 when
`percentage` is set. -/
def safe_ratio (numerator denominator : Option ℚ) (percentage : Bool) : Option ℚ :=
  match numerator, denominator with
  | Option.some n, Option.some d =>
    if d == 0 then Option.none
    else if percentage then Option.some (n / d * 100) else Option.some (n / d)
  | _, _ => Option.none

/-- Python truthiness of an `Optional[float]`: `None` and `0.0` are falsy. -/
def truthy : Option ℚ → Bool
  | Option.none => false
  | Option.some x => x != 0

/-- Field-name mapping `field_mapping` of `search_line_items` (akshare-api.py
lines 413-450): standard field name to provider column name. -/
def field_mapping : List (String × String) :=
  [("net_income", "净利润"),
   ("revenue", "营业总收入"),
   ("total_assets", "总资产"),
   ("total_liabilities", "负债合计"),
   ("current_assets", "流动资产"),
   ("current_liabilities", "流动负债"),
   ("shareholders_equity", "股东权益合计"),
   ("earnings_per_share", "每股收益"),
   ("book_value_per_share", "每股净资产"),
   ("free_cash_flow", "经营现金流量净额"),
   ("depreciation", "折旧与摊销"),
   ("capex", "购建固定资产无形资产和其他长期资产支付的现金"),
   ("ebit", "营业利润"),
   ("ebitda", "息税折旧摊销前利润"),
   ("outstanding_shares", "总股本"),
   ("dividends_and_other_cash_distributions", "分派股利利润或偿付利息支付的现金"),
   ("operating_income", "营业利润"),
   ("gross_profit", "毛利润"),
   ("operating_expenses", "营业总成本"),
   ("cash_and_cash_equivalents", "货币资金"),
   ("inventory", "存货"),
   ("accounts_receivable", "应收账款"),
   ("accounts_payable", "应付账款"),
   ("long_term_debt", "长期借款"),
   ("short_term_debt", "短期借款"),
   ("interest_expense", "利息费用"),
   ("income_tax_expense", "所得税费用"),
   ("research_and_development", "研发费用"),
   ("selling_general_administrative", "销售费用"),
   ("cost_of_revenue", "营业成本"),
   ("operating_cash_flow", "经营现金流量净额"),
   ("investing_cash_flow", "投资现金流量净额"),
   ("financing_cash_flow", "筹资现金流量净额"),
   ("weighted_average_shares", "总股本"),
   ("diluted_weighted_average_shares", "总股本")]

/-- Ratio-engine field resolver `get_field_value(row, field_name)`
(akshare-api.py lines 486-551): directly mapped fields go through
`safe_float`; calculated fields (the `calculated_fields` registry, lines
453-467) combine `safe_float` leaf values, yielding `0.0` (not missing) on a
zero denominator; unknown names fall back to `safe_float` on the name itself. -/
def get_field_value (row : Row) (field_name : String) : ℚ :=
  match field_mapping.lookup field_name with
  | Option.some ak_field => safe_float (rowGet row ak_field) 0
  | Option.none =>
    if field_name == "working_capital" then
      safe_float (rowGet row "流动资产") 0 - safe_float (rowGet row "流动负债") 0
    else if field_name == "book_value" then
      safe_float (rowGet row "总资产") 0 - safe_float (rowGet row "负债合计") 0
    else if field_name == "debt_to_equity" then
      let e := safe_float (rowGet row "股东权益合计") 0
      if e ≠ 0 then safe_float (rowGet row "负债合计") 0 / e else 0
    else if field_name == "total_debt" then
      safe_float (rowGet row "长期借款") 0 + safe_float (rowGet row "短期借款") 0
    else if field_name == "net_debt" then
      (safe_float (rowGet row "长期借款") 0 + safe_float (rowGet row "短期借款") 0)
        - safe_float (rowGet row "货币资金") 0
    else if field_name == "return_on_equity" then
      let e := safe_float (rowGet row "股东权益合计") 0
      if e ≠ 0 then safe_float (rowGet row "净利润") 0 / e * 100 else 0
    else if field_name == "return_on_assets" then
      let a := safe_float (rowGet row "总资产") 0
      if a ≠ 0 then safe_float (rowGet row "净利润") 0 / a * 100 else 0
    else if field_name == "asset_turnover" then
      let a := safe_float (rowGet row "总资产") 0
      if a ≠ 0 then safe_float (rowGet row "营业总收入") 0 / a else 0
    else if field_name == "current_ratio" then
      let cl := safe_float (rowGet row "流动负债") 0
      if cl ≠ 0 then safe_float (rowGet row "流动资产") 0 / cl else 0
    else if field_name == "quick_ratio" then
      let cl := safe_float (rowGet row "流动负债") 0
      if cl ≠ 0 then
        (safe_float (rowGet row "流动资产") 0 - safe_float (rowGet row "存货") 0) / cl
      else 0
    else if field_name == "gross_margin" then
      let r := safe_float (rowGet row "营业总收入") 0
      if r ≠ 0 then safe_float (rowGet row "毛利润") 0 / r * 100 else 0
    else if field_name == "operating_margin" then
      let r := safe_float (rowGet row "营业总收入") 0
      if r ≠ 0 then safe_float (rowGet row "营业利润") 0 / r * 100 else 0
    else if field_name == "net_margin" then
      let r := safe_float (rowGet row "营业总收入") 0
      if r ≠ 0 then safe_float (rowGet row "净利润") 0 / r * 100 else 0
    else safe_float (rowGet row field_name) 0

/-- Lexicographic code-point comparison of character lists, the order Python
uses to sort reporting-period strings. -/
def lexLtChars : List Char → List Char → Bool
  | [], [] => false
  | [], _ :: _ => true
  | _ :: _, [] => false
  | a :: as, b :: bs =>
    if a.toNat < b.toNat then true
    else if b.toNat < a.toNat then false
    else lexLtChars as bs

/-- Python `<` on strings: lexicographic by code point. -/
def pyStrLt (a b : String) : Bool := lexLtChars a.data b.data

/-- Descending order on strings, the sort key of
`sorted(list(common_periods), reverse=True)` (akshare-api.py line 127):
`strDesc a b` holds when `a` may precede `b`, i.e. `a` is not less than `b`. -/
def strDesc (a b : String) : Prop := pyStrLt a b = false

instance : DecidableRel strDesc := fun a b =>
  inferInstanceAs (Decidable (pyStrLt a b = false))

/-- String value of the reporting-period cell; the provider's period column
carries string labels. -/
def periodString : RawValue → String
  | RawValue.str s => s
  | _ => ""

/-- Reporting period of a row, read from the provider's period column
(akshare-api.py lines 115-116). -/
def periodOfRow (r : Row) : String := periodString (rowGet r "报告期")

/-- Metrics Aligner period selection (akshare-api.py lines 114-127): the
reporting periods present in both tables (a set, so duplicates count once),
sorted descending, truncated to the first `limit`.  `insertionSort` models
Python `sorted` (on a duplicate-free list any correct sort produces the same
output). -/
def alignPeriods (ps1 ps2 : List String) (limit : ℕ) : List String :=
  (List.insertionSort strDesc ((ps1.filter (fun p => ps2.contains p)).dedup)).take limit

/-- Canonical metric record, the fields of `FinancialMetrics` that
`get_financial_metrics` computes from the two statement tables
(akshare-api.py lines 190-256); fields the source sets to the constant
`None` are omitted. -/
structure FinancialMetricsRec where
  report_period : String
  ticker : String
  period : String
  currency : String
  revenue : Option ℚ
  net_income : Option ℚ
  gross_profit : Option ℚ
  operating_income : Option ℚ
  ebit : Option ℚ
  total_assets : Option ℚ
  current_assets : Option ℚ
  non_current_assets : Option ℚ
  cash_and_cash_equivalents : Option ℚ
  total_debt : Option ℚ
  current_liabilities : Option ℚ
  non_current_liabilities : Option ℚ
  shareholders_equity : Option ℚ
  return_on_equity : Option ℚ
  return_on_assets : Option ℚ
  operating_margin : Option ℚ
  net_margin : Option ℚ
  gross_margin : Option ℚ
  current_ratio : Option ℚ
  debt_to_equity : Option ℚ
  debt_to_assets : Option ℚ
  earnings_per_share : Option ℚ
  book_value_per_share : Option ℚ
  deriving Repr, DecidableEq

/-- Construction of one canonical metric record from the matching
income-statement row and balance-sheet row (akshare-api.py lines 156-256).
The source guards `non_current_assets` and `non_current_liabilities` with
Python truthiness and re-applies `safe_extract_value` to the already
extracted floats, which is the identity on a non-zero float. -/
def buildMetric (tk pd rp : String) (benefit_row debt_row : Row) : FinancialMetricsRec :=
  let revenue := safe_extract_value (rowGet benefit_row "*营业总收入") 1
  let net_income := safe_extract_value (rowGet benefit_row "*净利润") 1
  let gross_profit := safe_extract_value (rowGet benefit_row "毛利润") 1
  let operating_income := safe_extract_value (rowGet benefit_row "三、营业利润") 1
  let total_assets := safe_extract_value (rowGet debt_row "*资产合计") 1
  let total_debt := safe_extract_value (rowGet debt_row "*负债合计") 1
  let shareholders_equity := safe_extract_value (rowGet debt_row "*所有者权益（或股东权益）合计") 1
  let current_assets := safe_extract_value (rowGet debt_row "流动资产") 1
  let current_liabilities := safe_extract_value (rowGet debt_row "流动负债") 1
  { report_period := rp
    ticker := tk
    period := pd
    currency := "CNY"
    revenue := revenue
    net_income := net_income
    gross_profit := gross_profit
    operating_income := operating_income
    ebit := operating_income
    total_assets := total_assets
    current_assets := current_assets
    non_current_assets :=
      if truthy total_assets && truthy current_assets then
        Option.some (total_assets.getD 0 - current_assets.getD 0)
      else Option.none
    cash_and_cash_equivalents := safe_extract_value (rowGet debt_row "现金及存放中央银行款项") 1
    total_debt := total_debt
    current_liabilities := current_liabilities
    non_current_liabilities :=
      if truthy total_debt && truthy current_liabilities then
        Option.some (total_debt.getD 0 - current_liabilities.getD 0)
      else Option.none
    shareholders_equity := shareholders_equity
    return_on_equity := safe_ratio net_income shareholders_equity true
    return_on_assets := safe_ratio net_income total_assets true
    operating_margin := safe_ratio operating_income revenue true
    net_margin := safe_ratio net_income revenue true
    gross_margin :=
      if truthy gross_profit then safe_ratio gross_profit revenue true else Option.none
    current_ratio := safe_ratio current_assets current_liabilities false
    debt_to_equity := safe_ratio total_debt shareholders_equity false
    debt_to_assets := safe_ratio total_debt total_assets false
    earnings_per_share := safe_extract_value (rowGet benefit_row "（一）基本每股收益") 1
    book_value_per_share :=
      if truthy shareholders_equity then
        safe_ratio shareholders_equity (Option.some 19405918198) false
      else Option.none }

/-- Per-period loop body of the aligner (akshare-api.py lines 129-263): each
retained period is built from the first matching row of each table; if either
lookup fails the per-period `try/except` skips the period and the loop
continues. -/
def alignRecords (build : String → Option FinancialMetricsRec)
    (sorted_periods : List String) : List FinancialMetricsRec :=
  sorted_periods.filterMap build

/-- Record builder for one retained period: the first row of each table whose
period column equals the retained period (pandas `iloc[0]` on the filtered
frame, line 132-133). -/
def recordBuilder (tk pd : String) (benefit debt : List Row) (rp : String) :
    Option FinancialMetricsRec :=
  match benefit.find? (fun r => periodOfRow r == rp),
        debt.find? (fun r => periodOfRow r == rp) with
  | Option.some br, Option.some dr => Option.some (buildMetric tk pd rp br dr)
  | _, _ => Option.none

/-- Metrics Aligner core of `get_financial_metrics` (akshare-api.py lines
106-270): empty inputs yield an empty list; otherwise the retained periods
are aligned into one record each. -/
def get_financial_metrics_core (tk pd : String) (benefit debt : List Row)
    (limit : ℕ) : List FinancialMetricsRec :=
  if benefit.isEmpty || debt.isEmpty then []
  else
    alignRecords (recordBuilder tk pd benefit debt)
      (alignPeriods (benefit.map periodOfRow) (debt.map periodOfRow) limit)

/-- Return-on-equity contribution to the financial-strength sub-score
(akshare-api.py lines 1089-1095), gated on Python truthiness of the metric. -/
def roe_score (v : Option ℚ) : ℕ :=
  if truthy v then
    if v.getD 0 > 15 then 10
    else if v.getD 0 > 10 then 7
    else if v.getD 0 > 5 then 4
    else 0
  else 0

/-- Debt-level contribution to the financial-strength sub-score
(akshare-api.py lines 1098-1104), gated on Python truthiness of the metric. -/
def debt_level_score (v : Option ℚ) : ℕ :=
  if truthy v then
    if v.getD 0 < 3 / 10 then 8
    else if v.getD 0 < 6 / 10 then 5
    else if v.getD 0 < 1 then 2
    else 0
  else 0

/-- Net-margin contribution to the financial-strength sub-score
(akshare-api.py lines 1107-1113), gated on Python truthiness of the metric. -/
def net_margin_score (v : Option ℚ) : ℕ :=
  if truthy v then
    if v.getD 0 > 20 then 7
    else if v.getD 0 > 10 then 4
    else if v.getD 0 > 5 then 2
    else 0
  else 0

/-- Financial-strength sub-score of one record: the sum of the three
independent contributions (akshare-api.py lines 1084-1113). -/
def financial_strength_score (m : FinancialMetricsRec) : ℕ :=
  roe_score m.return_on_equity + debt_level_score m.debt_to_equity
    + net_margin_score m.net_margin

/-- Score components of the Warren Buffett scoring system (akshare-api.py
lines 1076-1082). -/
structure ScoreComponents where
  business_understandability : ℕ
  competitive_advantage : ℕ
  financial_strength : ℕ
  management_quality : ℕ
  valuation_attractiveness : ℕ
  deriving Repr, DecidableEq

/-- Component computation of `get_warren_buffett_analysis` (akshare-api.py
lines 1076-1122): financial strength from the latest record when metrics are
nonempty; business understandability and competitive advantage from the
industry-tag lookup; the other categories stay zero. -/
def warren_buffett_components (metrics : List FinancialMetricsRec)
    (industry : String) : ScoreComponents :=
  let fs := match metrics with
    | [] => 0
    | m :: _ => financial_strength_score m
  let bu_ca : ℕ × ℕ :=
    if containsSub industry "银行" then (15, 12)
    else if containsSub industry "酿酒" then (18, 20)
    else (0, 0)
  { business_understandability := bu_ca.1
    competitive_advantage := bu_ca.2
    financial_strength := fs
    management_quality := 0
    valuation_attractiveness := 0 }

/-- Total score: `sum(score_components.values())` (akshare-api.py line 1125). -/
def warren_buffett_total (c : ScoreComponents) : ℕ :=
  c.business_understandability + c.competitive_advantage + c.financial_strength
    + c.management_quality + c.valuation_attractiveness

/-- Letter grade of a total score (akshare-api.py line 1130 and 1374-1379). -/
def score_grade (t : ℕ) : String :=
  if t ≥ 80 then "A" else if t ≥ 60 then "B" else if t ≥ 40 then "C" else "D"

/-- Composite scoring output of `get_warren_buffett_analysis` (akshare-api.py
lines 1124-1130): components, total, grade. -/
def warren_buffett_score (metrics : List FinancialMetricsRec)
    (industry : String) : ScoreComponents × ℕ × String :=
  let c := warren_buffett_components metrics industry
  (c, warren_buffett_total c, score_grade (warren_buffett_total c))

/-- Peer-relative bonus of the enhanced analysis (akshare-api.py lines
1357-1369): over the non-zero percentage changes, the fraction of peers the
target outperforms, bucketed into a competitive-advantage bonus. -/
def peer_relative_bonus (nonzero_changes : List ℚ) (target : ℚ) : ℕ :=
  if nonzero_changes.isEmpty then 0
  else
    let better := (nonzero_changes.filter (fun x => x < target)).length
    let rel : ℚ := (better : ℚ) / (nonzero_changes.length : ℚ)
    if rel > 4 / 5 then 5 else if rel > 3 / 5 then 3 else if rel > 2 / 5 then 1 else 0

/-- Component adjustment of `get_enhanced_warren_buffett_analysis`
(akshare-api.py lines 1355-1369): the peer bonus is added to the
competitive-advantage component. -/
def enhanced_components (c : ScoreComponents) (peer_changes : List ℚ)
    (target : ℚ) : ScoreComponents :=
  let nonzero := peer_changes.filter (fun x => x != 0)
  { c with competitive_advantage := c.competitive_advantage + peer_relative_bonus nonzero target }

/-- Recomputed total and grade of the enhanced analysis (akshare-api.py lines
1371-1379): plain sum of the adjusted components, same grade step function,
no clamping. -/
def enhanced_score (c : ScoreComponents) (peer_changes : List ℚ)
    (target : ℚ) : ℕ × String :=
  let c2 := enhanced_components c peer_changes target
  (warren_buffett_total c2, score_grade (warren_buffett_total c2))

/-- PE assessment `analyze_pe_ratio` (akshare-api.py lines 1609-1625). -/
def analyze_pe_ratio : Option ℚ → String
  | Option.none => "unknown"
  | Option.some pe =>
    if pe ≤ 0 then "negative_earnings"
    else if pe < 10 then "very_attractive"
    else if pe < 15 then "attractive"
    else if pe < 20 then "fair"
    else if pe < 30 then "expensive"
    else "very_expensive"

/-- PB assessment `analyze_pb_ratio` (akshare-api.py lines 1628-1644). -/
def analyze_pb_ratio : Option ℚ → String
  | Option.none => "unknown"
  | Option.some pb =>
    if pb ≤ 0 then "negative_book_value"
    else if pb < 1 then "very_attractive"
    else if pb < 3 / 2 then "attractive"
    else if pb < 5 / 2 then "fair"
    else if pb < 4 then "expensive"
    else "very_expensive"

/-- Valuation sub-score `get_valuation_score` (akshare-api.py lines
1647-1680). -/
def get_valuation_score (r : Option ℚ) (rtype : String) : ℕ :=
  match r with
  | Option.none => 50
  | Option.some x =>
    if rtype == "pe" then
      if x ≤ 0 then 0
      else if x < 10 then 95
      else if x < 15 then 85
      else if x < 20 then 70
      else if x < 30 then 40
      else 10
    else if rtype == "pb" then
      if x ≤ 0 then 0
      else if x < 1 then 95
      else if x < 3 / 2 then 85
      else if x < 5 / 2 then 70
      else if x < 4 then 40
      else 10
    else 50

/-- Verdict mapping applied to the average score (akshare-api.py lines
1593-1600). -/
def valuationVerdict (avg : ℚ) : String :=
  if avg ≥ 80 then "attractive"
  else if avg ≥ 60 then "fair"
  else if avg ≥ 40 then "expensive"
  else "overvalued"

/-- Overall valuation verdict of `get_valuation_metrics` (akshare-api.py
lines 1580-1600): stays `undetermined` unless both ratios are Python-truthy
(present and non-zero); otherwise the mean of the two sub-scores is mapped
through the verdict thresholds. -/
def overall_valuation (pe pb : Option ℚ) : String :=
  if truthy pe && truthy pb then
    valuationVerdict (((get_valuation_score pe "pe" : ℚ) + (get_valuation_score pb "pb" : ℚ)) / 2)
  else "undetermined"

/-- Residual parse of a string input after the suffix branch the extractor
selects (the branch order of akshare-api.py lines 143-152): this is the
`float(...)` call whose `ValueError` the source catches. -/
def residualParse (s : String) : Option ℚ :=
  if charContains s '亿' then pyFloat (removeChar s '亿')
  else if charContains s '万' then pyFloat (removeChar s '万')
  else if charContains s '%' then pyFloat (removeChar s '%')
  else pyFloat (removeChar (removeChar s ',') ' ')

theorem lexLt_asymm : ∀ as bs, lexLtChars as bs = true → lexLtChars bs as = false := by
  intro as
  induction as with
  | nil =>
    intro bs h
    cases bs with
    | nil => simp [lexLtChars] at h
    | cons b tl => simp [lexLtChars]
  | cons a tl ih =>
    intro bs h
    cases bs with
    | nil => simp [lexLtChars] at h
    | cons b btl =>
      simp only [lexLtChars] at h ⊢
      by_cases hab : a.toNat < b.toNat
      · rw [if_neg (show ¬ b.toNat < a.toNat by omega), if_pos hab]
      · by_cases hba : b.toNat < a.toNat
        · rw [if_neg hab, if_pos hba] at h; cases h
        · rw [if_neg hab, if_neg hba] at h
          rw [if_neg hba, if_neg hab]
          exact ih btl h

theorem lexLt_total_ish : ∀ as bs, lexLtChars as bs = false ∨ lexLtChars bs as = false := by
  intro as bs
  by_cases h : lexLtChars as bs = true
  · exact Or.inr (lexLt_asymm as bs h)
  · exact Or.inl (by simpa using h)

theorem lexLt_neg_trans : ∀ as bs cs, lexLtChars as bs = false →
    lexLtChars bs cs = false → lexLtChars as cs = false := by
  intro as
  induction as with
  | nil =>
    intro bs cs h1 h2
    cases bs with
    | nil => exact h2
    | cons b btl => simp [lexLtChars] at h1
  | cons a atl ih =>
    intro bs cs h1 h2
    cases bs with
    | nil =>
      cases cs with
      | nil => simp [lexLtChars]
      | cons c ctl => simp [lexLtChars] at h2
    | cons b btl =>
      cases cs with
      | nil => simp [lexLtChars]
      | cons c ctl =>
        simp only [lexLtChars] at h1 h2 ⊢
        by_cases hab : a.toNat < b.toNat
        · rw [if_pos hab] at h1; cases h1
        · by_cases hbc : b.toNat < c.toNat
          · rw [if_pos hbc] at h2; cases h2
          · by_cases hba : b.toNat < a.toNat
            · rw [if_neg (by omega : ¬ a.toNat < c.toNat),
                if_pos (by omega : c.toNat < a.toNat)]
            · by_cases hcb : c.toNat < b.toNat
              · rw [if_neg (by omega : ¬ a.toNat < c.toNat),
                  if_pos (by omega : c.toNat < a.toNat)]
              · rw [if_neg hab, if_neg hba] at h1
                rw [if_neg hbc, if_neg hcb] at h2
                rw [if_neg (by omega : ¬ a.toNat < c.toNat),
                  if_neg (by omega : ¬ c.toNat < a.toNat)]
                exact ih btl ctl h1 h2

instance : IsTotal String strDesc := ⟨fun a b => lexLt_total_ish a.data b.data⟩

instance : IsTrans String strDesc :=
  ⟨fun a b c h1 h2 => lexLt_neg_trans a.data b.data c.data h1 h2⟩

theorem not_sentinel_of_char (s : String) (c : Char) (h : charContains s c = true)
    (hF : charContains "False" c = false) (hE : charContains "" c = false)
    (hN : charContains "nan" c = false) :
    isNoDataSentinel (RawValue.str s) = false := by
  have h1 : s ≠ "False" := by rintro rfl; rw [hF] at h; cases h
  have h2 : s ≠ "" := by rintro rfl; rw [hE] at h; cases h
  have h3 : s ≠ "nan" := by rintro rfl; rw [hN] at h; cases h
  simp [isNoDataSentinel, h1, h2, h3]

/-- Example row of primary fields for the zero-denominator experiment:
current assets 100, current liabilities 0. -/
def rowC1 : Row := [("流动资产", RawValue.num 100), ("流动负债", RawValue.num 0)]

/-- Claim C1 counterexample: in the Ratio Engine's `get_field_value` path,
computing `current_ratio` from fields with current_liabilities = 0 and
current_assets = 100 yields the number 0.0, not a missing value (the
function's return type carries no missing value at all), contradicting the
claim that every ratio computation yields missing there. -/
theorem get_field_value_zero_denominator_yields_zero :
    get_field_value rowC1 "current_ratio" = 0 := by decide

/-- Claim C1 (amended): the `safe_ratio` helper of `get_financial_metrics`
returns missing whenever the numerator is missing, the denominator is missing
or the denominator equals zero — in particular for current_ratio with
current liabilities 0 and current assets 100 — while the `get_field_value`
ratio path of `search_line_items` instead coerces missing operands to the
0.0 default and returns 0.0 on a zero denominator, so the same current_ratio
query yields 0.0 there, never a missing value. -/
theorem safe_ratio_missing_policy :
    (∀ (n d : Option ℚ) (p : Bool),
      n = Option.none ∨ d = Option.none ∨ d = Option.some 0 →
      safe_ratio n d p = Option.none)
    ∧ safe_ratio (Option.some 100) (Option.some 0) false = Option.none
    ∧ get_field_value rowC1 "current_ratio" = 0 := by
  refine ⟨?_, by decide, by decide⟩
  rintro n d p (rfl | rfl | rfl)
  · rfl
  · cases n <;> rfl
  · cases n with
    | none => rfl
    | some a => simp [safe_ratio]

/-- Witness for C1: the amended theorem applied at a concrete missing
denominator. -/
theorem safe_ratio_missing_policy_witness :
    safe_ratio (Option.some 5) Option.none true = Option.none :=
  safe_ratio_missing_policy.1 (Option.some 5) Option.none true (Or.inr (Or.inl rfl))

/-- Claim C2: the Value Extractor scales a hundred-million-suffixed numeral
by 1e8 and a ten-thousand-suffixed numeral by 1e4 (at multiplier 1), and
strips a percent suffix without dividing by 100; concretely extract("1.5亿")
is 150000000.0, extract("2万") is 20000.0 and extract("12.5%") is 12.5. -/
theorem extractor_magnitude_scaling :
    safe_extract_value (RawValue.str "1.5亿") 1 = Option.some 150000000
    ∧ safe_extract_value (RawValue.str "2万") 1 = Option.some 20000
    ∧ safe_extract_value (RawValue.str "12.5%") 1 = Option.some (25 / 2)
    ∧ (∀ s x, charContains s '亿' = true → pyFloat (removeChar s '亿') = Option.some x →
        safe_extract_value (RawValue.str s) 1 = Option.some (x * 100000000))
    ∧ (∀ s x, charContains s '亿' = false → charContains s '万' = true →
        pyFloat (removeChar s '万') = Option.some x →
        safe_extract_value (RawValue.str s) 1 = Option.some (x * 10000))
    ∧ (∀ s x, charContains s '亿' = false → charContains s '万' = false →
        charContains s '%' = true → pyFloat (removeChar s '%') = Option.some x →
        safe_extract_value (RawValue.str s) 1 = Option.some x) := by
  have u1 : ∀ s x, charContains s '亿' = true → pyFloat (removeChar s '亿') = Option.some x →
      safe_extract_value (RawValue.str s) 1 = Option.some (x * 100000000) := by
    intro s x h hp
    have hs := not_sentinel_of_char s '亿' h (by decide) (by decide) (by decide)
    simp [safe_extract_value, hs, h, hp, mul_one]
  have u2 : ∀ s x, charContains s '亿' = false → charContains s '万' = true →
      pyFloat (removeChar s '万') = Option.some x →
      safe_extract_value (RawValue.str s) 1 = Option.some (x * 10000) := by
    intro s x h0 h hp
    have hs := not_sentinel_of_char s '万' h (by decide) (by decide) (by decide)
    simp [safe_extract_value, hs, h0, h, hp, mul_one]
  have u3 : ∀ s x, charContains s '亿' = false → charContains s '万' = false →
      charContains s '%' = true → pyFloat (removeChar s '%') = Option.some x →
      safe_extract_value (RawValue.str s) 1 = Option.some x := by
    intro s x h0 h1 h hp
    have hs := not_sentinel_of_char s '%' h (by decide) (by decide) (by decide)
    simp [safe_extract_value, hs, h0, h1, h, hp]
  refine ⟨?_, ?_, ?_, u1, u2, u3⟩
  · have hr : removeChar "1.5亿" '亿' = "1.5" := by decide
    have hp : pyFloat (removeChar "1.5亿" '亿') = Option.some (3 / 2) := by
      rw [hr]; simp +decide [pyFloat, trimChars, parseUnsignedChars, digitsToNat]; norm_num
    rw [u1 "1.5亿" (3 / 2) (by decide) hp]; norm_num
  · have hr : removeChar "2万" '万' = "2" := by decide
    have hp : pyFloat (removeChar "2万" '万') = Option.some 2 := by
      rw [hr]; simp +decide [pyFloat, trimChars, parseUnsignedChars, digitsToNat]
    rw [u2 "2万" 2 (by decide) (by decide) hp]; norm_num
  · have hr : removeChar "12.5%" '%' = "12.5" := by decide
    have hp : pyFloat (removeChar "12.5%" '%') = Option.some (25 / 2) := by
      rw [hr]; simp +decide [pyFloat, trimChars, parseUnsignedChars, digitsToNat]; norm_num
    exact u3 "12.5%" (25 / 2) (by decide) (by decide) (by decide) hp

/-- Witness for C2: the universal hundred-million conjunct applied at the
concrete input "1.5亿". -/
theorem extractor_magnitude_scaling_witness :
    safe_extract_value (RawValue.str "1.5亿") 1 = Option.some (3 / 2 * 100000000) :=
  extractor_magnitude_scaling.2.2.2.1 "1.5亿" (3 / 2) (by decide)
    (by
      have hr : removeChar "1.5亿" '亿' = "1.5" := by decide
      rw [hr]; simp +decide [pyFloat, trimChars, parseUnsignedChars, digitsToNat]; norm_num)

/-- Claim C3: the Value Extractor fails soft: the recognized sentinels
(empty string, the literal "False" token, None) return missing, every string
whose residual numeral fails to parse returns missing rather than raising
(exceptions are impossible by construction: the result type is an optional
rational), and e.g. the malformed cell "N/A" yields missing. -/
theorem extractor_fails_soft :
    (∀ m, safe_extract_value (RawValue.str "") m = Option.none)
    ∧ (∀ m, safe_extract_value (RawValue.str "False") m = Option.none)
    ∧ (∀ m, safe_extract_value RawValue.none m = Option.none)
    ∧ (∀ s m, residualParse s = Option.none →
        safe_extract_value (RawValue.str s) m = Option.none)
    ∧ safe_extract_value (RawValue.str "N/A") 1 = Option.none := by
  refine ⟨fun m => rfl, fun m => rfl, fun m => rfl, ?_, by decide⟩
  intro s m h
  by_cases hs : isNoDataSentinel (RawValue.str s) = true
  · simp [safe_extract_value, hs]
  · simp only [residualParse] at h
    simp only [safe_extract_value, hs, Bool.false_eq_true, if_false]
    split_ifs at h ⊢ <;> simp_all

/-- Witness for C3: the unparseable-residual conjunct applied at the
concrete input "abc" with multiplier 3. -/
theorem extractor_fails_soft_witness :
    safe_extract_value (RawValue.str "abc") 3 = Option.none :=
  extractor_fails_soft.2.2.2.1 "abc" 3 (by decide)

/-- Claim C10: the numeric input 0 passes the sentinel membership test
(Python's `0 == False`), so the Value Extractor returns missing for it, the
default-substituting variant returns its caller-supplied default, and a
legitimate zero cell is indistinguishable from an absent cell at the
extractor's interface. -/
theorem numeric_zero_is_sentinel :
    isNoDataSentinel (RawValue.num 0) = true
    ∧ (∀ m, safe_extract_value (RawValue.num 0) m = Option.none)
    ∧ (∀ d, safe_float (RawValue.num 0) d = d)
    ∧ (∀ m, safe_extract_value (RawValue.num 0) m = safe_extract_value RawValue.none m) :=
  ⟨rfl, fun _ => rfl, fun _ => rfl, fun _ => rfl⟩

theorem alignPeriods_mem {ps1 ps2 : List String} {limit : ℕ} {p : String}
    (h : p ∈ alignPeriods ps1 ps2 limit) : p ∈ ps1 ∧ p ∈ ps2 := by
  unfold alignPeriods at h
  have h1 := List.mem_of_mem_take h
  rw [(List.perm_insertionSort strDesc _).mem_iff, List.mem_dedup, List.mem_filter] at h1
  exact ⟨h1.1, by simpa using h1.2⟩

theorem alignPeriods_nil_left (ps2 : List String) (limit : ℕ) :
    alignPeriods [] ps2 limit = [] := by
  unfold alignPeriods
  simp

theorem alignPeriods_nil_right (ps1 : List String) (limit : ℕ) :
    alignPeriods ps1 [] limit = [] := by
  unfold alignPeriods
  have h : ps1.filter (fun p => List.contains [] p) = [] := by
    simp [List.filter_eq_nil_iff]
  rw [h]
  simp

theorem filterMap_report_periods (f : String → Option FinancialMetricsRec) :
    ∀ l : List String, (∀ p ∈ l, ∃ r, f p = Option.some r ∧ r.report_period = p) →
    (List.filterMap f l).map (fun m => m.report_period) = l := by
  intro l
  induction l with
  | nil => intro _; rfl
  | cons a tl ih =>
    intro h
    obtain ⟨r, hr, hp⟩ := h a (List.mem_cons_self a tl)
    rw [List.filterMap_cons, hr]
    simp only [List.map_cons, hp]
    rw [ih (fun p hp2 => h p (List.mem_cons_of_mem a hp2))]

theorem recordBuilder_some {tk pd : String} {benefit debt : List Row} {p : String}
    (h1 : p ∈ benefit.map periodOfRow) (h2 : p ∈ debt.map periodOfRow) :
    ∃ r, recordBuilder tk pd benefit debt p = Option.some r ∧ r.report_period = p := by
  obtain ⟨br, hbr, hbp⟩ := List.mem_map.mp h1
  obtain ⟨dr, hdr, hdp⟩ := List.mem_map.mp h2
  have hb : (benefit.find? (fun r => periodOfRow r == p)).isSome := by
    rw [List.find?_isSome]
    exact ⟨br, hbr, by simp [hbp]⟩
  have hd : (debt.find? (fun r => periodOfRow r == p)).isSome := by
    rw [List.find?_isSome]
    exact ⟨dr, hdr, by simp [hdp]⟩
  obtain ⟨br2, hbr2⟩ := Option.isSome_iff_exists.mp hb
  obtain ⟨dr2, hdr2⟩ := Option.isSome_iff_exists.mp hd
  refine ⟨buildMetric tk pd p br2 dr2, ?_, rfl⟩
  unfold recordBuilder
  rw [hbr2, hdr2]

/-- Primary (income-statement-like) example table with periods P1, P2, P3. -/
def benefitEx : List Row :=
  [[("报告期", RawValue.str "2021-12-31")],
   [("报告期", RawValue.str "2022-12-31")],
   [("报告期", RawValue.str "2023-12-31")]]

/-- Secondary (balance-sheet-like) example table with periods P2, P3, P4. -/
def debtEx : List Row :=
  [[("报告期", RawValue.str "2022-12-31")],
   [("报告期", RawValue.str "2023-12-31")],
   [("报告期", RawValue.str "2024-12-31")]]

/-- Claim C4: the Metrics Aligner produces records exactly for the reporting
periods present in both tables, ordered descending by period, with at most
`limit` periods retained; concretely, primary periods P1, P2, P3 against
secondary periods P2, P3, P4 yield exactly P3 then P2. -/
theorem aligner_periods_exact :
    (∀ tk pd benefit debt limit,
      (get_financial_metrics_core tk pd benefit debt limit).map (fun m => m.report_period)
        = alignPeriods (benefit.map periodOfRow) (debt.map periodOfRow) limit)
    ∧ (∀ ps1 ps2 limit p, p ∈ alignPeriods ps1 ps2 limit → p ∈ ps1 ∧ p ∈ ps2)
    ∧ (∀ ps1 ps2 limit, List.Sorted strDesc (alignPeriods ps1 ps2 limit))
    ∧ (∀ ps1 ps2 limit, (alignPeriods ps1 ps2 limit).length ≤ limit)
    ∧ (∀ ps1 ps2 limit, ((ps1.filter (fun p => ps2.contains p)).dedup).length ≤ limit →
        ∀ p, p ∈ alignPeriods ps1 ps2 limit ↔ p ∈ ps1 ∧ p ∈ ps2)
    ∧ (get_financial_metrics_core "600519" "ttm" benefitEx debtEx 10).map
        (fun m => m.report_period) = ["2023-12-31", "2022-12-31"] := by
  refine ⟨?_, fun ps1 ps2 limit p h => alignPeriods_mem h, ?_, ?_, ?_, by decide⟩
  · intro tk pd b d lim
    by_cases hbd : (b.isEmpty || d.isEmpty) = true
    · unfold get_financial_metrics_core
      rw [if_pos hbd]
      rcases Bool.or_eq_true_iff.mp hbd with hb | hd
      · rw [List.isEmpty_iff.mp hb]
        simp [alignPeriods_nil_left]
      · rw [List.isEmpty_iff.mp hd]
        simp [alignPeriods_nil_right]
    · unfold get_financial_metrics_core
      rw [if_neg hbd]
      unfold alignRecords
      apply filterMap_report_periods
      intro p hp
      obtain ⟨hp1, hp2⟩ := alignPeriods_mem hp
      exact recordBuilder_some hp1 hp2
  · intro ps1 ps2 lim
    exact List.Pairwise.sublist (List.take_sublist lim _)
      (List.sorted_insertionSort strDesc _)
  · intro ps1 ps2 lim
    unfold alignPeriods
    rw [List.length_take]
    exact min_le_left _ _
  · intro ps1 ps2 lim hlen p
    constructor
    · exact alignPeriods_mem
    · rintro ⟨hp1, hp2⟩
      unfold alignPeriods
      rw [List.take_of_length_le
        (by rw [(List.perm_insertionSort strDesc _).length_eq]; exact hlen)]
      rw [(List.perm_insertionSort strDesc _).mem_iff, List.mem_dedup, List.mem_filter]
      exact ⟨hp1, by simpa using hp2⟩

/-- Witness for C4: the membership conjunct at the concrete example tables
shows a retained period is present in both sources. -/
theorem aligner_periods_exact_witness :
    "2023-12-31" ∈ benefitEx.map periodOfRow ∧ "2023-12-31" ∈ debtEx.map periodOfRow :=
  aligner_periods_exact.2.1 (benefitEx.map periodOfRow) (debtEx.map periodOfRow) 10
    "2023-12-31" (by decide)

/-- Claim C9: the Metrics Aligner's failure policy: an empty primary or
secondary table yields the empty list, no shared reporting period yields the
empty list, and a period whose record construction fails is skipped while the
remaining periods are still aligned. -/
theorem aligner_failure_policy :
    (∀ tk pd debt limit, get_financial_metrics_core tk pd [] debt limit = [])
    ∧ (∀ tk pd benefit limit, get_financial_metrics_core tk pd benefit [] limit = [])
    ∧ (∀ tk pd benefit debt limit,
        (benefit.map periodOfRow).filter
          (fun p => (debt.map periodOfRow).contains p) = [] →
        get_financial_metrics_core tk pd benefit debt limit = [])
    ∧ (∀ (build : String → Option FinancialMetricsRec) (xs ys : List String) q,
        build q = Option.none →
        alignRecords build (xs ++ q :: ys) = alignRecords build xs ++ alignRecords build ys) := by
  refine ⟨fun tk pd d lim => rfl, ?_, ?_, ?_⟩
  · intro tk pd b lim
    unfold get_financial_metrics_core
    rw [if_pos (by simp)]
  · intro tk pd b d lim h
    by_cases hbd : (b.isEmpty || d.isEmpty) = true
    · unfold get_financial_metrics_core
      rw [if_pos hbd]
    · unfold get_financial_metrics_core
      rw [if_neg hbd]
      unfold alignPeriods
      rw [h]
      simp [alignRecords]
  · intro build xs ys q hq
    simp [alignRecords, List.filterMap_append, List.filterMap_cons, hq]

/-- Witness for C9: the skip conjunct applied to a concrete failing period in
the middle of the retained list. -/
theorem aligner_failure_policy_witness :
    alignRecords (fun _ => Option.none) (["2023-12-31"] ++ "2022-12-31" :: ["2021-12-31"])
      = alignRecords (fun _ => Option.none) ["2023-12-31"]
        ++ alignRecords (fun _ => Option.none) ["2021-12-31"] :=
  aligner_failure_policy.2.2.2 (fun _ => Option.none)
    ["2023-12-31"] ["2021-12-31"] "2022-12-31" rfl

/-- Record with every extracted field missing, used as the base for concrete
scoring inputs. -/
def blankRec : FinancialMetricsRec :=
  { report_period := "2023-12-31"
    ticker := "600519"
    period := "ttm"
    currency := "CNY"
    revenue := Option.none
    net_income := Option.none
    gross_profit := Option.none
    operating_income := Option.none
    ebit := Option.none
    total_assets := Option.none
    current_assets := Option.none
    non_current_assets := Option.none
    cash_and_cash_equivalents := Option.none
    total_debt := Option.none
    current_liabilities := Option.none
    non_current_liabilities := Option.none
    shareholders_equity := Option.none
    return_on_equity := Option.none
    return_on_assets := Option.none
    operating_margin := Option.none
    net_margin := Option.none
    gross_margin := Option.none
    current_ratio := Option.none
    debt_to_equity := Option.none
    debt_to_assets := Option.none
    earnings_per_share := Option.none
    book_value_per_share := Option.none }

/-- Record with return-on-equity 18, debt-to-equity exactly 0, net-margin 25. -/
def recDebtZero : FinancialMetricsRec :=
  { blankRec with
    return_on_equity := Option.some 18
    debt_to_equity := Option.some 0
    net_margin := Option.some 25 }

/-- Record of the claim's worked example: return-on-equity 18, debt-to-equity
0.2, net-margin 25. -/
def recExample : FinancialMetricsRec :=
  { blankRec with
    return_on_equity := Option.some 18
    debt_to_equity := Option.some (1 / 5)
    net_margin := Option.some 25 }

/-- Claim C5 counterexample: a record with return-on-equity 18, debt-to-equity
exactly 0 and net-margin 25 scores 17, not the 10 + 8 + 7 = 25 the stated
bucketing (debt-to-equity < 0.3 adds 8) demands: the source gates each signal
on Python truthiness, so a zero debt-to-equity contributes nothing. -/
theorem financial_strength_skips_zero_debt :
    financial_strength_score recDebtZero = 17
    ∧ recDebtZero.return_on_equity = Option.some 18
    ∧ recDebtZero.debt_to_equity = Option.some 0
    ∧ recDebtZero.net_margin = Option.some 25
    ∧ (17 : ℕ) ≠ 10 + 8 + 7 := by
  refine ⟨?_, rfl, rfl, rfl, by decide⟩
  simp [financial_strength_score, roe_score, debt_level_score, net_margin_score,
    recDebtZero, blankRec, truthy]
  norm_num

/-- Claim C5 (amended): the base financial-strength sub-score is the sum of
three independent bucketed contributions, each gated on the metric being
present and non-zero (Python truthiness): return-on-equity >15 adds 10, >10
adds 7, >5 adds 4, else 0; debt-to-equity, when non-zero, <0.3 adds 8, <0.6
adds 5, <1.0 adds 2, else 0, while a missing or exactly-zero debt-to-equity
adds 0; net-margin >20 adds 7, >10 adds 4, >5 adds 2, else 0; the example
record (return-on-equity 18, debt-to-equity 0.2, net-margin 25) scores 25,
independent of the industry tag. -/
theorem financial_strength_bucketing :
    (∀ m : FinancialMetricsRec, financial_strength_score m =
      roe_score m.return_on_equity + debt_level_score m.debt_to_equity
        + net_margin_score m.net_margin)
    ∧ (∀ x : ℚ, 15 < x → roe_score (Option.some x) = 10)
    ∧ (∀ x : ℚ, 10 < x → x ≤ 15 → roe_score (Option.some x) = 7)
    ∧ (∀ x : ℚ, 5 < x → x ≤ 10 → roe_score (Option.some x) = 4)
    ∧ (∀ x : ℚ, x ≤ 5 → roe_score (Option.some x) = 0)
    ∧ roe_score Option.none = 0
    ∧ (∀ x : ℚ, x ≠ 0 → x < 3 / 10 → debt_level_score (Option.some x) = 8)
    ∧ (∀ x : ℚ, 3 / 10 ≤ x → x < 6 / 10 → debt_level_score (Option.some x) = 5)
    ∧ (∀ x : ℚ, 6 / 10 ≤ x → x < 1 → debt_level_score (Option.some x) = 2)
    ∧ (∀ x : ℚ, 1 ≤ x → debt_level_score (Option.some x) = 0)
    ∧ debt_level_score (Option.some 0) = 0
    ∧ debt_level_score Option.none = 0
    ∧ (∀ x : ℚ, 20 < x → net_margin_score (Option.some x) = 7)
    ∧ (∀ x : ℚ, 10 < x → x ≤ 20 → net_margin_score (Option.some x) = 4)
    ∧ (∀ x : ℚ, 5 < x → x ≤ 10 → net_margin_score (Option.some x) = 2)
    ∧ (∀ x : ℚ, x ≤ 5 → net_margin_score (Option.some x) = 0)
    ∧ net_margin_score Option.none = 0
    ∧ (∀ metrics i1 i2, (warren_buffett_components metrics i1).financial_strength
        = (warren_buffett_components metrics i2).financial_strength)
    ∧ financial_strength_score recExample = 25
    ∧ (∀ industry, (warren_buffett_components [recExample] industry).financial_strength = 25) := by
  have hfs : financial_strength_score recExample = 25 := by
    simp [financial_strength_score, roe_score, debt_level_score, net_margin_score,
      recExample, blankRec, truthy]
    norm_num
  refine ⟨fun m => rfl, ?_, ?_, ?_, ?_, rfl, ?_, ?_, ?_, ?_, by
      simp [debt_level_score, truthy], rfl, ?_, ?_, ?_, ?_, rfl, ?_, hfs, ?_⟩
  · intro x hx
    have h0 : x ≠ 0 := by intro h; rw [h] at hx; norm_num at hx
    simp [roe_score, truthy, h0, hx]
  · intro x h1 h2
    have h0 : x ≠ 0 := by intro h; rw [h] at h1; norm_num at h1
    simp [roe_score, truthy, h0, h1, not_lt.mpr h2]
  · intro x h1 h2
    have h0 : x ≠ 0 := by intro h; rw [h] at h1; norm_num at h1
    have h3 : ¬ (15 : ℚ) < x := by linarith
    simp [roe_score, truthy, h0, h1, h3, not_lt.mpr h2]
  · intro x h1
    by_cases h0 : x = 0
    · simp [roe_score, truthy, h0]
    · have h2 : ¬ (15 : ℚ) < x := by linarith
      have h3 : ¬ (10 : ℚ) < x := by linarith
      simp [roe_score, truthy, h0, h2, h3, not_lt.mpr h1]
  · intro x h0 hx
    simp [debt_level_score, truthy, h0, hx]
  · intro x h1 h2
    have h0 : x ≠ 0 := by intro h; rw [h] at h1; norm_num at h1
    simp [debt_level_score, truthy, h0, not_lt.mpr h1, h2]
  · intro x h1 h2
    have h0 : x ≠ 0 := by intro h; rw [h] at h1; norm_num at h1
    have h3 : ¬ x < 3 / 10 := by linarith
    simp [debt_level_score, truthy, h0, h3, not_lt.mpr h1, h2]
  · intro x h1
    have h0 : x ≠ 0 := by intro h; rw [h] at h1; norm_num at h1
    have h2 : ¬ x < 3 / 10 := by linarith
    have h3 : ¬ x < 6 / 10 := by linarith
    simp [debt_level_score, truthy, h0, h2, h3, not_lt.mpr h1]
  · intro x hx
    have h0 : x ≠ 0 := by intro h; rw [h] at hx; norm_num at hx
    simp [net_margin_score, truthy, h0, hx]
  · intro x h1 h2
    have h0 : x ≠ 0 := by intro h; rw [h] at h1; norm_num at h1
    simp [net_margin_score, truthy, h0, h1, not_lt.mpr h2]
  · intro x h1 h2
    have h0 : x ≠ 0 := by intro h; rw [h] at h1; norm_num at h1
    have h3 : ¬ (20 : ℚ) < x := by linarith
    simp [net_margin_score, truthy, h0, h1, h3, not_lt.mpr h2]
  · intro x h1
    by_cases h0 : x = 0
    · simp [net_margin_score, truthy, h0]
    · have h2 : ¬ (20 : ℚ) < x := by linarith
      have h3 : ¬ (10 : ℚ) < x := by linarith
      simp [net_margin_score, truthy, h0, h2, h3, not_lt.mpr h1]
  · intro metrics i1 i2
    cases metrics <;> rfl
  · intro industry
    show (warren_buffett_components [recExample] industry).financial_strength = 25
    simpa [warren_buffett_components] using hfs

/-- Witness for C5: the top return-on-equity bucket applied at the concrete
value 16. -/
theorem financial_strength_bucketing_witness :
    roe_score (Option.some 16) = 10 :=
  financial_strength_bucketing.2.1 16 (by norm_num)

/-- Claim C6: the Valuation Scorer maps a missing ratio to (unknown, 50), a
non-positive ratio to (negative-earnings / negative-book-value, 0), and a
positive ratio into five bands with scores 95, 85, 70, 40, 10 at the
kind-specific thresholds (PE: 10, 15, 20, 30; PB: 1, 1.5, 2.5, 4); concretely
assess(8.0, pe) is (very-attractive, 95), assess(-3.0, pe) is
(negative-earnings, 0), and assess(None, pb) is (unknown, 50). -/
theorem valuation_scorer_buckets :
    (analyze_pe_ratio Option.none = "unknown" ∧ get_valuation_score Option.none "pe" = 50)
    ∧ (analyze_pb_ratio Option.none = "unknown" ∧ get_valuation_score Option.none "pb" = 50)
    ∧ (∀ x : ℚ, x ≤ 0 → analyze_pe_ratio (Option.some x) = "negative_earnings"
        ∧ get_valuation_score (Option.some x) "pe" = 0)
    ∧ (∀ x : ℚ, x ≤ 0 → analyze_pb_ratio (Option.some x) = "negative_book_value"
        ∧ get_valuation_score (Option.some x) "pb" = 0)
    ∧ (∀ x : ℚ, 0 < x → x < 10 → analyze_pe_ratio (Option.some x) = "very_attractive"
        ∧ get_valuation_score (Option.some x) "pe" = 95)
    ∧ (∀ x : ℚ, 10 ≤ x → x < 15 → analyze_pe_ratio (Option.some x) = "attractive"
        ∧ get_valuation_score (Option.some x) "pe" = 85)
    ∧ (∀ x : ℚ, 15 ≤ x → x < 20 → analyze_pe_ratio (Option.some x) = "fair"
        ∧ get_valuation_score (Option.some x) "pe" = 70)
    ∧ (∀ x : ℚ, 20 ≤ x → x < 30 → analyze_pe_ratio (Option.some x) = "expensive"
        ∧ get_valuation_score (Option.some x) "pe" = 40)
    ∧ (∀ x : ℚ, 30 ≤ x → analyze_pe_ratio (Option.some x) = "very_expensive"
        ∧ get_valuation_score (Option.some x) "pe" = 10)
    ∧ (∀ x : ℚ, 0 < x → x < 1 → analyze_pb_ratio (Option.some x) = "very_attractive"
        ∧ get_valuation_score (Option.some x) "pb" = 95)
    ∧ (∀ x : ℚ, 1 ≤ x → x < 3 / 2 → analyze_pb_ratio (Option.some x) = "attractive"
        ∧ get_valuation_score (Option.some x) "pb" = 85)
    ∧ (∀ x : ℚ, 3 / 2 ≤ x → x < 5 / 2 → analyze_pb_ratio (Option.some x) = "fair"
        ∧ get_valuation_score (Option.some x) "pb" = 70)
    ∧ (∀ x : ℚ, 5 / 2 ≤ x → x < 4 → analyze_pb_ratio (Option.some x) = "expensive"
        ∧ get_valuation_score (Option.some x) "pb" = 40)
    ∧ (∀ x : ℚ, 4 ≤ x → analyze_pb_ratio (Option.some x) = "very_expensive"
        ∧ get_valuation_score (Option.some x) "pb" = 10)
    ∧ (analyze_pe_ratio (Option.some 8) = "very_attractive"
        ∧ get_valuation_score (Option.some 8) "pe" = 95)
    ∧ (analyze_pe_ratio (Option.some (-3)) = "negative_earnings"
        ∧ get_valuation_score (Option.some (-3)) "pe" = 0) := by
  refine ⟨⟨rfl, rfl⟩, ⟨rfl, rfl⟩, ?_, ?_, ?_, ?_, ?_, ?_, ?_, ?_, ?_, ?_, ?_, ?_,
    ⟨by norm_num [analyze_pe_ratio], by norm_num [get_valuation_score]⟩,
    ⟨by norm_num [analyze_pe_ratio], by norm_num [get_valuation_score]⟩⟩
  · intro x h
    constructor <;> simp +decide [analyze_pe_ratio, get_valuation_score, h]
  · intro x h
    constructor <;> simp +decide [analyze_pb_ratio, get_valuation_score, h]
  · intro x h1 h2
    have h0 : ¬ x ≤ 0 := by linarith
    constructor <;> simp +decide [analyze_pe_ratio, get_valuation_score, h0, h2]
  · intro x h1 h2
    have h0 : ¬ x ≤ 0 := by linarith
    have h3 : ¬ x < 10 := not_lt.mpr h1
    constructor <;> simp +decide [analyze_pe_ratio, get_valuation_score, h0, h2, h3]
  · intro x h1 h2
    have h0 : ¬ x ≤ 0 := by linarith
    have h3 : ¬ x < 10 := by simp; linarith
    have h4 : ¬ x < 15 := not_lt.mpr h1
    constructor <;> simp +decide [analyze_pe_ratio, get_valuation_score, h0, h2, h3, h4]
  · intro x h1 h2
    have h0 : ¬ x ≤ 0 := by linarith
    have h3 : ¬ x < 10 := by simp; linarith
    have h4 : ¬ x < 15 := by simp; linarith
    have h5 : ¬ x < 20 := not_lt.mpr h1
    constructor <;> simp +decide [analyze_pe_ratio, get_valuation_score, h0, h2, h3, h4, h5]
  · intro x h1
    have h0 : ¬ x ≤ 0 := by linarith
    have h3 : ¬ x < 10 := by simp; linarith
    have h4 : ¬ x < 15 := by simp; linarith
    have h5 : ¬ x < 20 := by simp; linarith
    have h6 : ¬ x < 30 := not_lt.mpr h1
    constructor <;> simp +decide [analyze_pe_ratio, get_valuation_score, h0, h3, h4, h5, h6]
  · intro x h1 h2
    have h0 : ¬ x ≤ 0 := by linarith
    constructor <;> simp +decide [analyze_pb_ratio, get_valuation_score, h0, h2]
  · intro x h1 h2
    have h0 : ¬ x ≤ 0 := by linarith
    have h3 : ¬ x < 1 := not_lt.mpr h1
    constructor <;> simp +decide [analyze_pb_ratio, get_valuation_score, h0, h2, h3]
  · intro x h1 h2
    have h0 : ¬ x ≤ 0 := by linarith
    have h3 : ¬ x < 1 := by simp; linarith
    have h4 : ¬ x < 3 / 2 := not_lt.mpr h1
    constructor <;> simp +decide [analyze_pb_ratio, get_valuation_score, h0, h2, h3, h4]
  · intro x h1 h2
    have h0 : ¬ x ≤ 0 := by linarith
    have h3 : ¬ x < 1 := by simp; linarith
    have h4 : ¬ x < 3 / 2 := by simp; linarith
    have h5 : ¬ x < 5 / 2 := not_lt.mpr h1
    constructor <;> simp +decide [analyze_pb_ratio, get_valuation_score, h0, h2, h3, h4, h5]
  · intro x h1
    have h0 : ¬ x ≤ 0 := by linarith
    have h3 : ¬ x < 1 := by simp; linarith
    have h4 : ¬ x < 3 / 2 := by simp; linarith
    have h5 : ¬ x < 5 / 2 := by simp; linarith
    have h6 : ¬ x < 4 := not_lt.mpr h1
    constructor <;> simp +decide [analyze_pb_ratio, get_valuation_score, h0, h3, h4, h5, h6]

/-- Witness for C6: the attractive PE band applied at the concrete ratio 12. -/
theorem valuation_scorer_buckets_witness :
    analyze_pe_ratio (Option.some 12) = "attractive"
      ∧ get_valuation_score (Option.some 12) "pe" = 85 :=
  valuation_scorer_buckets.2.2.2.2.2.1 12 (by norm_num) (by norm_num)

/-- Claim C7: in both the base and the enhanced scoring paths the total score
is the plain sum of the five category sub-scores with no normalization and no
clamping at 100 (a component assignment of 40/40/40/0/0 yields total 120,
grade A), and the letter grade is the step function A at 80, B at 60, C at
40, D below. -/
theorem composite_total_and_grade :
    (∀ metrics industry,
      (warren_buffett_score metrics industry).2.1
          = warren_buffett_total (warren_buffett_score metrics industry).1
        ∧ (warren_buffett_score metrics industry).2.2
          = score_grade ((warren_buffett_score metrics industry).2.1))
    ∧ (∀ c peer_changes target,
      (enhanced_score c peer_changes target).1
          = warren_buffett_total (enhanced_components c peer_changes target)
        ∧ (enhanced_score c peer_changes target).2
          = score_grade ((enhanced_score c peer_changes target).1))
    ∧ (∀ c : ScoreComponents, warren_buffett_total c
        = c.business_understandability + c.competitive_advantage + c.financial_strength
          + c.management_quality + c.valuation_attractiveness)
    ∧ (∀ t, 80 ≤ t → score_grade t = "A")
    ∧ (∀ t, 60 ≤ t → t < 80 → score_grade t = "B")
    ∧ (∀ t, 40 ≤ t → t < 60 → score_grade t = "C")
    ∧ (∀ t, t < 40 → score_grade t = "D")
    ∧ enhanced_score ⟨40, 40, 40, 0, 0⟩ [] 0 = (120, "A") := by
  refine ⟨fun metrics industry => ⟨rfl, rfl⟩, fun c pcs t => ⟨rfl, rfl⟩, fun c => rfl,
    ?_, ?_, ?_, ?_, by decide⟩
  · intro t ht
    unfold score_grade
    rw [if_pos ht]
  · intro t h1 h2
    unfold score_grade
    rw [if_neg (by omega), if_pos h1]
  · intro t h1 h2
    unfold score_grade
    rw [if_neg (by omega), if_neg (by omega), if_pos h1]
  · intro t h1
    unfold score_grade
    rw [if_neg (by omega), if_neg (by omega), if_neg (by omega)]

/-- Witness for C7: the grade step function applied at the concrete total 85. -/
theorem composite_total_and_grade_witness :
    score_grade 85 = "A" :=
  composite_total_and_grade.2.2.2.1 85 (by omega)

/-- Claim C8 counterexample: with a PE ratio of exactly 0 (its assessment,
negative-earnings with score 0, is available) and a PB ratio of 2 (score 70,
mean 35, which the claimed mapping sends to an overvalued/expensive verdict),
the code leaves the overall verdict undetermined: the truthiness guard treats
the zero ratio as absent. -/
theorem overall_valuation_zero_ratio_undetermined :
    overall_valuation (Option.some 0) (Option.some 2) = "undetermined"
    ∧ analyze_pe_ratio (Option.some 0) = "negative_earnings"
    ∧ get_valuation_score (Option.some 0) "pe" = 0
    ∧ get_valuation_score (Option.some 2) "pb" = 70
    ∧ ((0 : ℚ) + 70) / 2 < 40
    ∧ "undetermined" ≠ "overvalued" ∧ "undetermined" ≠ "expensive" := by
  refine ⟨rfl, by norm_num [analyze_pe_ratio], by norm_num [get_valuation_score],
    by norm_num [get_valuation_score] <;> decide, by norm_num, by decide, by decide⟩

/-- Claim C8 (amended): when both ratios are present and non-zero (Python
truthiness; a zero ratio leaves the verdict undetermined), the overall
valuation verdict is the arithmetic mean of the two sub-scores mapped through
the thresholds: at least 80 attractive, at least 60 fair, at least 40
expensive, otherwise overvalued. -/
theorem overall_valuation_mean_mapping :
    (∀ x y : ℚ, x ≠ 0 → y ≠ 0 →
      overall_valuation (Option.some x) (Option.some y)
        = valuationVerdict (((get_valuation_score (Option.some x) "pe" : ℚ)
            + (get_valuation_score (Option.some y) "pb" : ℚ)) / 2))
    ∧ (∀ a : ℚ, 80 ≤ a → valuationVerdict a = "attractive")
    ∧ (∀ a : ℚ, 60 ≤ a → a < 80 → valuationVerdict a = "fair")
    ∧ (∀ a : ℚ, 40 ≤ a → a < 60 → valuationVerdict a = "expensive")
    ∧ (∀ a : ℚ, a < 40 → valuationVerdict a = "overvalued")
    ∧ (∀ pb, overall_valuation Option.none pb = "undetermined")
    ∧ (∀ pe, overall_valuation pe Option.none = "undetermined")
    ∧ (∀ pb, overall_valuation (Option.some 0) pb = "undetermined")
    ∧ overall_valuation (Option.some 8) (Option.some (1 / 2)) = "attractive"
    ∧ overall_valuation (Option.some 12) (Option.some 2) = "fair"
    ∧ overall_valuation (Option.some 25) (Option.some 2) = "expensive"
    ∧ overall_valuation (Option.some 50) (Option.some 10) = "overvalued" := by
  have hverdict : (∀ a : ℚ, 80 ≤ a → valuationVerdict a = "attractive")
      ∧ (∀ a : ℚ, 60 ≤ a → a < 80 → valuationVerdict a = "fair")
      ∧ (∀ a : ℚ, 40 ≤ a → a < 60 → valuationVerdict a = "expensive")
      ∧ (∀ a : ℚ, a < 40 → valuationVerdict a = "overvalued") := by
    refine ⟨?_, ?_, ?_, ?_⟩
    · intro a h
      unfold valuationVerdict
      rw [if_pos h]
    · intro a h1 h2
      unfold valuationVerdict
      rw [if_neg (by linarith), if_pos h1]
    · intro a h1 h2
      unfold valuationVerdict
      rw [if_neg (by linarith), if_neg (by linarith), if_pos h1]
    · intro a h1
      unfold valuationVerdict
      rw [if_neg (by linarith), if_neg (by linarith), if_neg (by linarith)]
  have hmain : ∀ x y : ℚ, x ≠ 0 → y ≠ 0 →
      overall_valuation (Option.some x) (Option.some y)
        = valuationVerdict (((get_valuation_score (Option.some x) "pe" : ℚ)
            + (get_valuation_score (Option.some y) "pb" : ℚ)) / 2) := by
    intro x y hx hy
    simp [overall_valuation, truthy, hx, hy]
  refine ⟨hmain, hverdict.1, hverdict.2.1, hverdict.2.2.1, hverdict.2.2.2,
    fun pb => rfl, ?_, ?_, ?_, ?_, ?_, ?_⟩
  · intro pe
    simp [overall_valuation, truthy, Bool.and_comm]
  · intro pb
    simp [overall_valuation, truthy]
  · rw [hmain 8 (1 / 2) (by norm_num) (by norm_num)]
    rw [show get_valuation_score (Option.some 8) "pe" = 95 from by
      norm_num [get_valuation_score]]
    rw [show get_valuation_score (Option.some (1 / 2)) "pb" = 95 from by
      norm_num [get_valuation_score] <;> decide]
    exact hverdict.1 _ (by norm_num)
  · rw [hmain 12 2 (by norm_num) (by norm_num)]
    rw [show get_valuation_score (Option.some 12) "pe" = 85 from by
      norm_num [get_valuation_score]]
    rw [show get_valuation_score (Option.some 2) "pb" = 70 from by
      norm_num [get_valuation_score] <;> decide]
    exact hverdict.2.1 _ (by norm_num) (by norm_num)
  · rw [hmain 25 2 (by norm_num) (by norm_num)]
    rw [show get_valuation_score (Option.some 25) "pe" = 40 from by
      norm_num [get_valuation_score]]
    rw [show get_valuation_score (Option.some 2) "pb" = 70 from by
      norm_num [get_valuation_score] <;> decide]
    exact hverdict.2.2.1 _ (by norm_num) (by norm_num)
  · rw [hmain 50 10 (by norm_num) (by norm_num)]
    rw [show get_valuation_score (Option.some 50) "pe" = 10 from by
      norm_num [get_valuation_score]]
    rw [show get_valuation_score (Option.some 10) "pb" = 10 from by
      norm_num [get_valuation_score] <;> decide]
    exact hverdict.2.2.2 _ (by norm_num)

/-- Witness for C8: the mean mapping applied at the concrete pair (8, 0.5). -/
theorem overall_valuation_mean_mapping_witness :
    overall_valuation (Option.some 8) (Option.some (1 / 2))
      = valuationVerdict (((get_valuation_score (Option.some 8) "pe" : ℚ)
          + (get_valuation_score (Option.some (1 / 2)) "pb" : ℚ)) / 2) :=
  overall_valuation_mean_mapping.1 8 (1 / 2) (by norm_num) (by norm_num)
